/-
  Verification of mcp-gsuite's authorization core and Gmail tool helpers.

  Shallow embedding of `src/mcp_gsuite/auth_utils.py`, the tool modules
  `src/mcp_gsuite/gmail_tools.py` / `calendar_tools.py` (the modules that
  `server.py` actually registers), and the base64 helper
  `decode_base64_data` shared by `gmail_tools.py` and `tools_gmail.py`.

  External collaborators (the `gauth` module, the Gmail API client, the
  filesystem) are modelled as explicit world records; each observable
  interaction with them is recorded in an effect trace so that statements
  such as "no network call is performed" or "the credential store is not
  touched" become statements about the trace.
-/
import Mathlib

namespace McpGsuite

/-! ### Credentials and the effect model for `auth_utils.py` -/

/-- A stored OAuth2 credential, as far as `setup_oauth2` inspects it:
`accessToken` stands for the opaque token blob and `expired` for the
`credentials.access_token_expired` flag read on line 66 of `auth_utils.py`. -/
structure Cred where
  accessToken : String
  expired : Bool
deriving DecidableEq, Repr

/-- Observable interactions of `setup_oauth2` with its collaborators, in the
order they are performed:
* `accountsRead` — `gauth.get_account_info()` (reads `.gauth.json`);
* `credLoad u` — `gauth.get_stored_credentials(user_id=u)`;
* `providerCall c` — `gauth.get_user_info(credentials=c)`, a network call to
  the provider that also refreshes the access token;
* `credSave u c` — `gauth.store_credentials(credentials=c, user_id=u)`;
* `interactiveFlow u` — `start_auth_flow(user_id=u)` (browser + local
  listener). -/
inductive AuthEffect where
  | accountsRead
  | credLoad (u : String)
  | providerCall (c : Cred)
  | credSave (u : String) (c : Cred)
  | interactiveFlow (u : String)
deriving DecidableEq, Repr

/-- Failures raised by the auth layer.  `noAccounts` and `unknownAccount`
are the two `RuntimeError`s raised on lines 58 and 60 of `auth_utils.py`
("No accounts specified in .gauth.json" and
"Account for email: {user_id} not specified in .gauth.json");
`missingIdentity` is the `RuntimeError` on line 79
("Missing required argument: __user_id__"); `refreshFailed` stands for an
exception escaping `gauth.get_user_info` (revoked/invalid refresh token);
`notCallable` stands for the `TypeError` Python raises when the wrapped
object of `require_auth` is applied although it is not callable. -/
inductive AuthErr where
  | noAccounts
  | unknownAccount (u : String)
  | missingIdentity
  | refreshFailed (u : String)
  | notCallable
deriving DecidableEq, Repr

/-- The environment `setup_oauth2` runs in: the configured account emails
(`.gauth.json`), the credential store, and the provider.  `getUserInfo c`
is the outcome of `gauth.get_user_info(credentials=c)`: `none` when the
call raises (refresh failure), `some c'` when it succeeds having refreshed
the credential object in place to `c'`. -/
structure AuthWorld where
  accounts : List String
  storedCred : String → Option Cred
  getUserInfo : Cred → Option Cred

/-- `setup_oauth2(user_id)` from `auth_utils.py` lines 55–71, returning its
outcome together with the trace of collaborator interactions.  The branch
on `credentials.access_token_expired` (line 66) only writes a log line and
is therefore not a trace event; both the expired and the unexpired case
continue with `get_user_info` and `store_credentials`.  `start_auth_flow`
is modelled as the single `interactiveFlow` event (its internal HTTP
listener is modelled separately by `OauthListener_do_GET`), after which
`setup_oauth2` returns normally. -/
def setup_oauth2 (w : AuthWorld) (user_id : String) :
    Except AuthErr Unit × List AuthEffect :=
  if w.accounts.isEmpty then
    (.error .noAccounts, [.accountsRead])
  else if user_id ∈ w.accounts then
    match w.storedCred user_id with
    | none => (.ok (), [.accountsRead, .credLoad user_id, .interactiveFlow user_id])
    | some c =>
      match w.getUserInfo c with
      | none =>
          (.error (.refreshFailed user_id),
           [.accountsRead, .credLoad user_id, .providerCall c])
      | some c' =>
          (.ok (),
           [.accountsRead, .credLoad user_id, .providerCall c, .credSave user_id c'])
  else
    (.error (.unknownAccount user_id), [.accountsRead])

/-! ### The `require_auth` decorator -/

/-- The keyword argument the wrapper reads, `USER_ID_ARG = "__user_id__"`. -/
def USER_ID_ARG : String := "__user_id__"

/-- A Python first-class value as passed to `require_auth`: either a genuine
tool function (keyword arguments → result and effect trace) or — as in the
buggy call sites of `gmail_tools.py` / `calendar_tools.py` — a plain
string. -/
inductive PyValue where
  | str (s : String)
  | func (f : List (String × String) → AuthWorld → String × List AuthEffect)

/-- The closure returned by `require_auth(func)`: constructing it has no
effect; all checks happen when `run` is invoked. -/
structure Wrapper where
  run : List (String × String) → AuthWorld → Except AuthErr String × List AuthEffect

/-- `require_auth` from `auth_utils.py` lines 74–83.  Applying it merely
builds the wrapper closure.  Invoking the wrapper reads
`kwargs.get(USER_ID_ARG)`; `if not user_id` (absent or empty) raises the
missing-argument error; otherwise it runs `setup_oauth2(user_id)` and, only
if that returns normally, calls `func(*args, **kwargs)` — which raises
`TypeError` when `func` is not callable. -/
def require_auth (v : PyValue) : Wrapper :=
  ⟨fun kwargs w =>
    match kwargs.lookup USER_ID_ARG with
    | none => (.error .missingIdentity, [])
    | some uid =>
      if uid = "" then (.error .missingIdentity, [])
      else
        match setup_oauth2 w uid with
        | (.error e, t) => (.error e, t)
        | (.ok _, t) =>
          match v with
          | .func f => let r := f kwargs w; (.ok r.1, t ++ r.2)
          | .str _ => (.error .notCallable, t)⟩

/-! ### The registered Gmail tool `query_gmail_emails` (`gmail_tools.py`) -/

/-- Observable steps of a Gmail tool invocation: either an auth-layer
event or a call into the Gmail API client. -/
inductive ToolEffect where
  | auth (e : AuthEffect)
  | gmailInit (u : String)
  | gmailQuery (u : String) (q : Option String) (maxResults : Nat)
deriving DecidableEq, Repr

/-- Environment of the Gmail tools: the auth world plus the Gmail API
client.  `serviceInit u` is `gmail.GmailService(user_id=u)` (`none` when the
constructor raises); `queryEmails u q n` is
`gmail_service.query_emails(query=q, max_results=n)` with the resulting
JSON rendering of the email list (`none` when it raises). -/
structure GmailWorld where
  auth : AuthWorld
  serviceInit : String → Option Unit
  queryEmails : String → Option String → Nat → Option String

/-- `query_gmail_emails` from `gmail_tools.py` lines 34–58 — the variant
registered by `server.py`.  Its first statement, `require_auth(__user_id__)`
(line 44), applies the decorator to the user-id string: this only
constructs a wrapper closure, which is immediately discarded, so neither
`setup_oauth2` nor any other check runs; the body proceeds unconditionally.
The three `try` blocks map to the `Option` results of the world functions,
each `except` returning the corresponding error string. -/
def query_gmail_emails (w : GmailWorld) (user_id : String)
    (query : Option String) (max_results : Nat) : String × List ToolEffect :=
  let _wrapper := require_auth (.str user_id)
  match w.serviceInit user_id with
  | none => ("Error initializing GmailService", [.gmailInit user_id])
  | some _ =>
    match w.queryEmails user_id query max_results with
    | none =>
        ("Error querying emails",
         [.gmailInit user_id, .gmailQuery user_id query max_results])
    | some emailsJson =>
        (emailsJson,
         [.gmailInit user_id, .gmailQuery user_id query max_results])

/-! ### The OAuth callback listener (`OauthListener.do_GET`) -/

/-- Observable actions of one `do_GET` invocation, in execution order:
`status n` is `send_response(n)` followed by `end_headers()`; `body s` is
`wfile.write(s)`; `flush` is `wfile.flush()`; `exchange code` is
`gauth.get_credentials(authorization_code=code, state=storage)`;
`shutdown` is starting the daemon thread that runs `server.shutdown`. -/
inductive HttpEv where
  | status (n : Nat)
  | body (s : String)
  | flush
  | exchange (code : String)
  | shutdown
deriving DecidableEq, Repr

/-- `OauthListener.do_GET` from `auth_utils.py` lines 14–37, as a function
of the parsed request: `path` is `urlparse(self.path).path` and `query` the
dictionary produced by `parse_qs` (which only contains keys that arrived
with a non-empty value, each mapped to a non-empty value list — we record
the first value, the one the handler reads via `query["code"][0]`). -/
def OauthListener_do_GET (path : String) (query : List (String × String)) :
    List HttpEv :=
  if path ≠ "/code" then [.status 404]
  else
    match query.lookup "code" with
    | none => [.status 400]
    | some code =>
        [.status 200, .body "Auth successful! You can close the tab!",
         .flush, .exchange code, .shutdown]

/-! ### Base64: `decode_base64_data` and the Python library functions

`decode_base64_data` (identical in `gmail_tools.py` lines 26–31 and
`tools_gmail.py` lines 14–19) maps `-`/`_` back to the standard alphabet,
restores `=` padding to a multiple of four, and calls
`base64.b64decode(·, validate=True)`.  Bytes are modelled as `Nat` values
below 256; a raised `binascii.Error` is modelled as `none`. -/

/-- The standard base64 alphabet, `b64Alphabet.get i` being the character
for sextet value `i`. -/
def b64Alphabet : List Char :=
  ['A', 'B', 'C', 'D', 'E', 'F', 'G', 'H', 'I', 'J', 'K', 'L', 'M',
   'N', 'O', 'P', 'Q', 'R', 'S', 'T', 'U', 'V', 'W', 'X', 'Y', 'Z',
   'a', 'b', 'c', 'd', 'e', 'f', 'g', 'h', 'i', 'j', 'k', 'l', 'm',
   'n', 'o', 'p', 'q', 'r', 's', 't', 'u', 'v', 'w', 'x', 'y', 'z',
   '0', '1', '2', '3', '4', '5', '6', '7', '8', '9', '+', '/']

/-- Character for a sextet value. -/
def b64Char (i : Nat) : Char := b64Alphabet.getD i 'A'

/-- Sextet value of a character; `none` for a character outside the
standard alphabet. -/
def b64Index (c : Char) : Option Nat :=
  let i := b64Alphabet.indexOf c
  if i < 64 then some i else none

/-- `base64.b64encode`: 3-byte groups become 4 characters; a trailing
group of 1 or 2 bytes is encoded with `==` / `=` padding. -/
def b64encodePy : List Nat → List Char
  | [] => []
  | [a] => [b64Char (a / 4), b64Char (a % 4 * 16), '=', '=']
  | [a, b] =>
      [b64Char (a / 4), b64Char (a % 4 * 16 + b / 16), b64Char (b % 16 * 4), '=']
  | a :: b :: c :: rest =>
      b64Char (a / 4) :: b64Char (a % 4 * 16 + b / 16) ::
      b64Char (b % 16 * 4 + c / 64) :: b64Char (c % 64) :: b64encodePy rest

/-- `base64.urlsafe_b64encode`: standard encoding with `+`→`-`, `/`→`_`. -/
def urlsafeChar (c : Char) : Char :=
  if c = '+' then '-' else if c = '/' then '_' else c

/-- `base64.urlsafe_b64encode` on a byte list. -/
def urlsafe_b64encode (l : List Nat) : List Char :=
  (b64encodePy l).map urlsafeChar

/-- Removing the trailing `=` padding, as Gmail's unpadded URL-safe base64
transport format does. -/
def stripBase64Pad (s : List Char) : List Char :=
  (s.reverse.dropWhile (fun c => c = '=')).reverse

/-- `base64.b64decode(s, validate=True)`: the input must consist of
alphabet characters followed by at most two `=` and have length a multiple
of four (otherwise `binascii.Error`, i.e. `none`).  Each full quad yields
three bytes; a final quad with one / two `=` yields two / one byte, the
unused low bits being discarded as CPython's decoder does. -/
def b64decodePy : List Char → Option (List Nat)
  | [] => some []
  | c1 :: c2 :: c3 :: c4 :: rest =>
    match b64Index c1, b64Index c2 with
    | some w, some x =>
      if c3 = '=' then
        if c4 = '=' then
          if rest.isEmpty then some [w * 4 + x / 16] else none
        else none
      else
        match b64Index c3 with
        | some y =>
          if c4 = '=' then
            if rest.isEmpty then some [w * 4 + x / 16, x % 16 * 16 + y / 4]
            else none
          else
            match b64Index c4 with
            | some z =>
              match b64decodePy rest with
              | some t =>
                  some ((w * 4 + x / 16) :: (x % 16 * 16 + y / 4) ::
                        (y % 4 * 64 + z) :: t)
              | none => none
            | none => none
        | none => none
    | _, _ => none
  | _ => none

/-- `file_data.replace("-", "+").replace("_", "/")`, character-wise (the
first replacement introduces no `_`, so the sequential replaces equal this
single map). -/
def replaceUrlChar (c : Char) : Char :=
  if c = '-' then '+' else if c = '_' then '/' else c

/-- The padding restoration of `decode_base64_data`: if the length is not
a multiple of four, append `=` up to the next multiple. -/
def b64Repad (t : List Char) : List Char :=
  if t.length % 4 = 0 then t else t ++ List.replicate (4 - t.length % 4) '='

/-- `decode_base64_data(file_data)` from `gmail_tools.py` lines 26–31 /
`tools_gmail.py` lines 14–19. -/
def decode_base64_data (file_data : List Char) : Option (List Nat) :=
  b64decodePy (b64Repad (file_data.map replaceUrlChar))

/-! ### The registered Gmail tool `bulk_save_gmail_attachments`
(`gmail_tools.py` lines 210–267) -/

/-- One element of the tool's `attachments` argument, a dictionary
carrying the keys `message_id`, `part_id` and `save_path`. -/
structure AttachEntry where
  message_id : String
  part_id : String
  save_path : String
deriving DecidableEq, Repr

/-- Environment of `bulk_save_gmail_attachments`:
* `getEmailAtts m` — `gmail_service.get_email_by_id_with_attachments(m)`:
  `none` when the returned email is `None`, otherwise the attachment
  dictionary as an association list `part_id ↦ attachmentId` (only the
  `attachmentId` field of each entry is read);
* `getAttachment m a` — `gmail_service.get_attachment(m, a)`: `none` when
  the result is `None`, otherwise the base64 `data` field;
* `writeFile p bytes` — `open(p, "wb")` / `f.write`: `false` when the write
  raises. -/
structure BulkWorld where
  getEmailAtts : String → Option (List (String × String))
  getAttachment : String → String → Option (List Char)
  writeFile : String → List Nat → Bool

/-- The `TextContent` text produced for one entry when the loop body does
not raise: the four `results.append` branches of the loop. -/
def bulkEntryResult (w : BulkWorld) (e : AttachEntry) : String :=
  match w.getEmailAtts e.message_id with
  | none => "Failed to retrieve message with ID: " ++ e.message_id
  | some atts =>
    match atts.lookup e.part_id with
    | none => "KeyError: " ++ e.part_id
    | some attachment_id =>
      match w.getAttachment e.message_id attachment_id with
      | none =>
          "Failed to retrieve attachment with ID: " ++ attachment_id ++
          " from message: " ++ e.message_id
      | some file_data =>
        match decode_base64_data file_data with
        | none => "Failed to save attachment to " ++ e.save_path
        | some bytes =>
          if w.writeFile e.save_path bytes then
            "Attachment saved to: " ++ e.save_path
          else
            "Failed to save attachment to " ++ e.save_path

/-- `bulk_save_gmail_attachments` from `gmail_tools.py` lines 210–267 (the
variant registered by `server.py`), processing the entries in order.  The
dictionary subscript `email_attachments[attachment_info["part_id"]]` (line
234) sits outside any `try`, so a missing `part_id` raises an uncaught
`KeyError` that aborts the whole tool call — modelled as an overall `none`.
Decoding errors and file-write errors are caught by the `try`/`except`
around the save, which appends a failure message and continues; a missing
message or attachment likewise appends a failure message and continues.
As in `query_gmail_emails`, the opening `require_auth(__user_id__)` (line
216) merely builds and discards a wrapper, contributing nothing. -/
def bulk_save_gmail_attachments (w : BulkWorld) (user_id : String) :
    List AttachEntry → Option (List String)
  | [] =>
    let _wrapper := require_auth (.str user_id)
    some []
  | e :: rest =>
    match w.getEmailAtts e.message_id with
    | none =>
        (bulk_save_gmail_attachments w user_id rest).map
          (fun rs => ("Failed to retrieve message with ID: " ++ e.message_id) :: rs)
    | some atts =>
      match atts.lookup e.part_id with
      | none => none
      | some attachment_id =>
        match w.getAttachment e.message_id attachment_id with
        | none =>
            (bulk_save_gmail_attachments w user_id rest).map
              (fun rs =>
                ("Failed to retrieve attachment with ID: " ++ attachment_id ++
                 " from message: " ++ e.message_id) :: rs)
        | some file_data =>
          let entryText :=
            match decode_base64_data file_data with
            | none => "Failed to save attachment to " ++ e.save_path
            | some bytes =>
              if w.writeFile e.save_path bytes then
                "Attachment saved to: " ++ e.save_path
              else
                "Failed to save attachment to " ++ e.save_path
          (bulk_save_gmail_attachments w user_id rest).map
            (fun rs => entryText :: rs)

/-! ### Concrete worlds used by witnesses and counterexamples -/

/-- A fresh (unexpired) stored credential. -/
def credFresh : Cred := ⟨"tok-fresh", false⟩

/-- An expired stored credential. -/
def credExp : Cred := ⟨"tok-exp", true⟩

/-- The credential produced by a successful `get_user_info` refresh. -/
def credNew : Cred := ⟨"tok-new", false⟩

/-- One configured account with a fresh stored credential; the provider
refresh succeeds. -/
def wAlice : AuthWorld :=
  ⟨["alice@example.com"],
   fun u => if u = "alice@example.com" then some credFresh else none,
   fun _ => some credNew⟩

/-- One configured account with an expired stored credential; the provider
refresh succeeds. -/
def wAliceExp : AuthWorld :=
  ⟨["alice@example.com"],
   fun u => if u = "alice@example.com" then some credExp else none,
   fun _ => some credNew⟩

/-- One configured account with no stored credential. -/
def wAliceNoCred : AuthWorld :=
  ⟨["alice@example.com"], fun _ => none, fun _ => some credNew⟩

/-- One configured account with an expired credential whose refresh
exchange fails. -/
def wAliceRefreshFail : AuthWorld :=
  ⟨["alice@example.com"],
   fun u => if u = "alice@example.com" then some credExp else none,
   fun _ => none⟩

/-- An empty account registry (`.gauth.json` lists no accounts). -/
def wEmptyReg : AuthWorld := ⟨[], fun _ => none, fun _ => none⟩

/-- A Gmail tool environment over `wAlice` whose API client succeeds on
every call, returning the JSON text `"[]"`. -/
def gwDemo : GmailWorld := ⟨wAlice, fun _ => some (), fun _ _ _ => some "[]"⟩

/-- The precondition of claim C10 for one entry: whenever the entry's
message lookup succeeds, its `part_id` is a key of the returned attachment
mapping (otherwise the Python loop raises an uncaught `KeyError`). -/
def partIdPresent (w : BulkWorld) (e : AttachEntry) : Bool :=
  match w.getEmailAtts e.message_id with
  | none => true
  | some atts => (atts.lookup e.part_id).isSome

/-- A bulk-save environment: message `"msg1"` exists with one attachment
part `"p1"` of id `"att1"` and base64 data `"SGVsbG8gMQ=="`; every other
message is missing; file writes succeed. -/
def bwDemo : BulkWorld :=
  ⟨fun m => if m = "msg1" then some [("p1", "att1")] else none,
   fun m a =>
     if m = "msg1" then
       (if a = "att1" then some "SGVsbG8gMQ==".toList else none)
     else none,
   fun _ _ => true⟩

/-- Two bulk-save entries: one resolvable, one whose message is missing. -/
def demoEntries : List AttachEntry :=
  [⟨"msg1", "p1", "f1.txt"⟩, ⟨"msg2", "p2", "f2.txt"⟩]

/-! ### Claims about `setup_oauth2` and `require_auth` -/

/-- C1: in the tool modules registered by `server.py`, the auth guard never
runs.  Evaluated at the failing input — `query_gmail_emails` invoked for
the identity `"intruder@example.com"`, which is not in the configured
account registry — the tool executes the Gmail query and returns its
result, its trace containing no auth-layer event at all, even though
`setup_oauth2` would have rejected this identity with the unknown-account
error.  The claim says the guard invokes `setup_oauth2(u)` before the body
and propagates its failure without running the body; the code's
`require_auth(__user_id__)` call merely builds and discards a wrapper
closure. -/
theorem query_gmail_emails_runs_without_auth_check :
    query_gmail_emails gwDemo "intruder@example.com" none 10
      = ("[]", [.gmailInit "intruder@example.com",
                .gmailQuery "intruder@example.com" none 10])
    ∧ ((query_gmail_emails gwDemo "intruder@example.com" none 10).2.all
        (fun e => match e with | .auth _ => false | _ => true)) = true
    ∧ (setup_oauth2 gwDemo.auth "intruder@example.com").1
        = .error (.unknownAccount "intruder@example.com") :=
  ⟨rfl, rfl, rfl⟩

/-- C2 counterexample: for the identity `"alice@example.com"`, whose stored
credential is not expired, `setup_oauth2` nevertheless performs the
provider network call `get_user_info` — contradicting the claim that it
returns without any call to the external provider. -/
theorem setup_oauth2_fresh_cred_calls_provider :
    (setup_oauth2 wAlice "alice@example.com").1 = .ok ()
    ∧ AuthEffect.providerCall credFresh ∈ (setup_oauth2 wAlice "alice@example.com").2 := by
  refine ⟨rfl, ?_⟩
  decide

/-- C2 (amended): for every identity with a stored, unexpired credential,
`setup_oauth2` returns successfully but only after performing exactly the
provider call `get_user_info` (which refreshes the token) and persisting
the refreshed credential — it does not return without a network call. -/
theorem setup_oauth2_fresh_cred_refreshes_and_saves
    (w : AuthWorld) (u : String) (c c' : Cred)
    (hmem : u ∈ w.accounts) (hstored : w.storedCred u = some c)
    (_hfresh : c.expired = false) (hinfo : w.getUserInfo c = some c') :
    setup_oauth2 w u
      = (.ok (), [.accountsRead, .credLoad u, .providerCall c, .credSave u c']) := by
  have hne : w.accounts.isEmpty = false := by
    cases haccs : w.accounts with
    | nil => rw [haccs] at hmem; cases hmem
    | cons a t => rfl
  simp [setup_oauth2, hne, hmem, hstored, hinfo]

/-- Witness for C2's amended theorem at the concrete world `wAlice`. -/
theorem setup_oauth2_fresh_cred_refreshes_and_saves_witness :
    setup_oauth2 wAlice "alice@example.com"
      = (.ok (), [.accountsRead, .credLoad "alice@example.com",
                  .providerCall credFresh, .credSave "alice@example.com" credNew]) :=
  setup_oauth2_fresh_cred_refreshes_and_saves wAlice "alice@example.com"
    credFresh credNew (by decide) (by decide) (by decide) rfl

/-- C3 counterexample: with an empty account registry, the identity
`"a@x.com"` is not in the registry, yet `setup_oauth2` fails with the
no-accounts error (`"No accounts specified in .gauth.json"`), not with the
unknown-account error the claim names. -/
theorem setup_oauth2_empty_registry_error :
    setup_oauth2 wEmptyReg "a@x.com" = (.error .noAccounts, [.accountsRead])
    ∧ AuthErr.noAccounts ≠ AuthErr.unknownAccount "a@x.com" := by
  constructor
  · rfl
  · decide

/-- C3 (amended): for every identity not present in the configured account
registry, `setup_oauth2` fails before any access to the credential store —
its trace is exactly the registry read — with the unknown-account error
when the registry is non-empty, and with the no-accounts error when the
registry is empty. -/
theorem setup_oauth2_unknown_account_no_store_access
    (w : AuthWorld) (u : String) (hmem : u ∉ w.accounts) :
    setup_oauth2 w u
      = (.error (if w.accounts.isEmpty then .noAccounts else .unknownAccount u),
         [.accountsRead]) := by
  by_cases hemp : w.accounts.isEmpty
  · simp [setup_oauth2, hemp]
  · simp only [setup_oauth2, hemp]
    simp [hmem]

/-- Witness for C3's amended theorem: unknown identity against the
non-empty registry of `wAlice`. -/
theorem setup_oauth2_unknown_account_no_store_access_witness :
    setup_oauth2 wAlice "bob@example.com"
      = (.error (if wAlice.accounts.isEmpty then .noAccounts
                 else .unknownAccount "bob@example.com"),
         [.accountsRead]) :=
  setup_oauth2_unknown_account_no_store_access wAlice "bob@example.com" (by decide)

/-- C4: for every identity with a stored expired credential whose refresh
succeeds, `setup_oauth2` performs exactly one refresh exchange against the
provider (`get_user_info`) and then persists the refreshed credential via
`store_credentials` before returning successfully — the trace is exactly
registry read, store load, one provider call, store save. -/
theorem setup_oauth2_expired_cred_refresh_once_and_save
    (w : AuthWorld) (u : String) (c c' : Cred)
    (hmem : u ∈ w.accounts) (hstored : w.storedCred u = some c)
    (_hexp : c.expired = true) (hinfo : w.getUserInfo c = some c') :
    setup_oauth2 w u
      = (.ok (), [.accountsRead, .credLoad u, .providerCall c, .credSave u c'])
    ∧ ((setup_oauth2 w u).2.countP
        (fun e => match e with | AuthEffect.providerCall _ => true | _ => false)) = 1 := by
  have hne : w.accounts.isEmpty = false := by
    cases haccs : w.accounts with
    | nil => rw [haccs] at hmem; cases hmem
    | cons a t => rfl
  have h : setup_oauth2 w u
      = (.ok (), [.accountsRead, .credLoad u, .providerCall c, .credSave u c']) := by
    simp [setup_oauth2, hne, hmem, hstored, hinfo]
  refine ⟨h, ?_⟩
  rw [h]
  rfl

/-- Witness for C4 at the concrete world `wAliceExp`. -/
theorem setup_oauth2_expired_cred_refresh_once_and_save_witness :
    setup_oauth2 wAliceExp "alice@example.com"
      = (.ok (), [.accountsRead, .credLoad "alice@example.com",
                  .providerCall credExp, .credSave "alice@example.com" credNew])
    ∧ ((setup_oauth2 wAliceExp "alice@example.com").2.countP
        (fun e => match e with | AuthEffect.providerCall _ => true | _ => false)) = 1 :=
  setup_oauth2_expired_cred_refresh_once_and_save wAliceExp "alice@example.com"
    credExp credNew (by decide) (by decide) (by decide) rfl

/-- C5: for every configured identity, `setup_oauth2` starts the
interactive authorization flow exactly when no stored credential exists;
and when a credential exists but the refresh exchange fails, the failure
propagates to the caller with the interactive flow never started. -/
theorem setup_oauth2_interactive_iff_no_cred
    (w : AuthWorld) (u : String) (hmem : u ∈ w.accounts) :
    ((∃ v, AuthEffect.interactiveFlow v ∈ (setup_oauth2 w u).2)
        ↔ w.storedCred u = none)
    ∧ (∀ c, w.storedCred u = some c → w.getUserInfo c = none →
        setup_oauth2 w u
          = (.error (.refreshFailed u),
             [.accountsRead, .credLoad u, .providerCall c])) := by
  have hne : w.accounts.isEmpty = false := by
    cases haccs : w.accounts with
    | nil => rw [haccs] at hmem; cases hmem
    | cons a t => rfl
  constructor
  · cases hstored : w.storedCred u with
    | none =>
      simp only [setup_oauth2, hne, Bool.false_eq_true, if_false, hmem, if_true, hstored]
      simp
    | some c =>
      cases hinfo : w.getUserInfo c with
      | none =>
        simp only [setup_oauth2, hne, Bool.false_eq_true, if_false, hmem, if_true,
          hstored, hinfo]
        simp
      | some c' =>
        simp only [setup_oauth2, hne, Bool.false_eq_true, if_false, hmem, if_true,
          hstored, hinfo]
        simp
  · intro c hstored hinfo
    simp [setup_oauth2, hne, hmem, hstored, hinfo]

/-- Witness for C5: with no stored credential the interactive flow is
started, and with a stored credential whose refresh fails the error
surfaces without any interactive flow. -/
theorem setup_oauth2_interactive_iff_no_cred_witness :
    (∃ v, AuthEffect.interactiveFlow v
        ∈ (setup_oauth2 wAliceNoCred "alice@example.com").2)
    ∧ setup_oauth2 wAliceRefreshFail "alice@example.com"
        = (.error (.refreshFailed "alice@example.com"),
           [.accountsRead, .credLoad "alice@example.com", .providerCall credExp]) :=
  ⟨(setup_oauth2_interactive_iff_no_cred wAliceNoCred "alice@example.com"
      (by decide)).1.mpr rfl,
   (setup_oauth2_interactive_iff_no_cred wAliceRefreshFail "alice@example.com"
      (by decide)).2 credExp (by decide) rfl⟩

/-- C7: invoking the wrapper produced by the `require_auth` decorator with
the `__user_id__` keyword argument absent or empty fails with the
missing-identity error and an empty effect trace — so neither
`setup_oauth2` nor the wrapped operation runs, whatever they are. -/
theorem require_auth_missing_identity
    (v : PyValue) (kwargs : List (String × String)) (w : AuthWorld)
    (h : kwargs.lookup USER_ID_ARG = none ∨ kwargs.lookup USER_ID_ARG = some "") :
    (require_auth v).run kwargs w = (.error .missingIdentity, []) := by
  rcases h with h | h <;> simp [require_auth, h]

/-- Witness for C7: empty keyword arguments. -/
theorem require_auth_missing_identity_witness :
    (require_auth (.str "x")).run [] wAlice = (.error .missingIdentity, []) :=
  require_auth_missing_identity (.str "x") [] wAlice (Or.inl rfl)

/-! ### Claim about the callback listener -/

/-- C6: for every GET request, a path other than `/code` yields exactly a
404 response — no code exchange, no shutdown; path `/code` without a
`code` parameter yields exactly a 400 response — no exchange, no shutdown;
and path `/code` with a `code` parameter yields the 200 response with the
confirmation body written and flushed, then exactly one code-for-token
exchange, and only then the listener shutdown. -/
theorem do_GET_contract (path : String) (query : List (String × String)) :
    (path ≠ "/code" →
      OauthListener_do_GET path query = [.status 404]
      ∧ (∀ c, HttpEv.exchange c ∉ OauthListener_do_GET path query)
      ∧ HttpEv.shutdown ∉ OauthListener_do_GET path query)
    ∧ (query.lookup "code" = none →
      OauthListener_do_GET "/code" query = [.status 400]
      ∧ (∀ c, HttpEv.exchange c ∉ OauthListener_do_GET "/code" query)
      ∧ HttpEv.shutdown ∉ OauthListener_do_GET "/code" query)
    ∧ (∀ code, query.lookup "code" = some code →
      OauthListener_do_GET "/code" query
        = [.status 200, .body "Auth successful! You can close the tab!",
           .flush, .exchange code, .shutdown]) := by
  refine ⟨fun hp => ?_, fun hq => ?_, fun code hq => ?_⟩
  · rw [OauthListener_do_GET, if_pos hp]
    refine ⟨rfl, ?_, ?_⟩ <;> simp
  · rw [OauthListener_do_GET, if_neg (by simp)]
    rw [hq]
    refine ⟨rfl, ?_, ?_⟩ <;> simp
  · rw [OauthListener_do_GET, if_neg (by simp)]
    rw [hq]

/-- Witness for C6: a request to `/other`, a request to `/code` without a
code, and a request to `/code?code=XYZ`. -/
theorem do_GET_contract_witness :
    OauthListener_do_GET "/other" [] = [.status 404]
    ∧ OauthListener_do_GET "/code" [] = [.status 400]
    ∧ OauthListener_do_GET "/code" [("code", "XYZ")]
        = [.status 200, .body "Auth successful! You can close the tab!",
           .flush, .exchange "XYZ", .shutdown] :=
  ⟨((do_GET_contract "/other" []).1 (by decide)).1,
   ((do_GET_contract "/code" []).2.1 rfl).1,
   (do_GET_contract "/code" [("code", "XYZ")]).2.2 "XYZ" rfl⟩

/-! ### Base64 lemmas -/

/-- Decoding the character of a sextet value recovers the value. -/
theorem b64Index_b64Char : ∀ i : Fin 64, b64Index (b64Char i.val) = some i.val := by
  decide

/-- Alphabet characters are not the padding character. -/
theorem b64Char_ne_pad : ∀ i : Fin 64, b64Char i.val ≠ '=' := by decide

/-- URL-safe images of alphabet characters are not the padding character. -/
theorem urlsafeChar_b64Char_ne_pad : ∀ i : Fin 64, urlsafeChar (b64Char i.val) ≠ '=' := by
  decide

/-- The `-`/`_` replacement undoes the URL-safe translation on alphabet
characters. -/
theorem replace_urlsafe_b64Char : ∀ i : Fin 64,
    replaceUrlChar (urlsafeChar (b64Char i.val)) = b64Char i.val := by decide

/-- `b64Index_b64Char` for a `Nat` bound. -/
theorem b64Index_b64Char_of_lt {n : Nat} (h : n < 64) : b64Index (b64Char n) = some n :=
  b64Index_b64Char ⟨n, h⟩

/-- `b64Char_ne_pad` for a `Nat` bound. -/
theorem b64Char_ne_pad_of_lt {n : Nat} (h : n < 64) : b64Char n ≠ '=' :=
  b64Char_ne_pad ⟨n, h⟩

/-- `b64Char` never yields the padding character (out-of-range indices
fall back to the default `'A'`). -/
theorem b64Char_ne_pad_nat (n : Nat) : b64Char n ≠ '=' := by
  by_cases h : n < 64
  · exact b64Char_ne_pad ⟨n, h⟩
  · have hA : b64Char n = 'A' := by
      unfold b64Char
      apply List.getD_eq_default
      simp [b64Alphabet]
      omega
    rw [hA]
    decide

/-- The `-`/`_` replacement undoes the URL-safe translation on every
`b64Char` output. -/
theorem replace_urlsafe_b64Char_nat (n : Nat) :
    replaceUrlChar (urlsafeChar (b64Char n)) = b64Char n := by
  by_cases h : n < 64
  · exact replace_urlsafe_b64Char ⟨n, h⟩
  · have hA : b64Char n = 'A' := by
      unfold b64Char
      apply List.getD_eq_default
      simp [b64Alphabet]
      omega
    rw [hA]
    decide

/-- Strict decoding inverts encoding on byte lists. -/
theorem b64decodePy_b64encodePy : ∀ (l : List Nat), (∀ x ∈ l, x < 256) →
    b64decodePy (b64encodePy l) = some l
  | [], _ => rfl
  | [a], h => by
    have ha : a < 256 := h a (by simp)
    have h1 : b64Index (b64Char (a / 4)) = some (a / 4) :=
      b64Index_b64Char_of_lt (by omega)
    have h2 : b64Index (b64Char (a % 4 * 16)) = some (a % 4 * 16) :=
      b64Index_b64Char_of_lt (by omega)
    simp only [b64encodePy, b64decodePy, h1, h2]
    simp only [if_pos rfl, List.isEmpty_nil, if_true]
    congr 2
    omega
  | [a, b], h => by
    have ha : a < 256 := h a (by simp)
    have hb : b < 256 := h b (by simp)
    have h1 : b64Index (b64Char (a / 4)) = some (a / 4) :=
      b64Index_b64Char_of_lt (by omega)
    have h2 : b64Index (b64Char (a % 4 * 16 + b / 16)) = some (a % 4 * 16 + b / 16) :=
      b64Index_b64Char_of_lt (by omega)
    have h3 : b64Index (b64Char (b % 16 * 4)) = some (b % 16 * 4) :=
      b64Index_b64Char_of_lt (by omega)
    have hne3 : b64Char (b % 16 * 4) ≠ '=' := b64Char_ne_pad_of_lt (by omega)
    simp only [b64encodePy, b64decodePy, h1, h2, h3, if_neg hne3]
    simp only [if_pos rfl, List.isEmpty_nil, if_true]
    congr 2
    · omega
    · congr 1
      omega
  | a :: b :: c :: rest, h => by
    have ha : a < 256 := h a (by simp)
    have hb : b < 256 := h b (by simp)
    have hc : c < 256 := h c (by simp)
    have ih := b64decodePy_b64encodePy rest (fun x hx => h x (by simp [hx]))
    have h1 : b64Index (b64Char (a / 4)) = some (a / 4) :=
      b64Index_b64Char_of_lt (by omega)
    have h2 : b64Index (b64Char (a % 4 * 16 + b / 16)) = some (a % 4 * 16 + b / 16) :=
      b64Index_b64Char_of_lt (by omega)
    have h3 : b64Index (b64Char (b % 16 * 4 + c / 64)) = some (b % 16 * 4 + c / 64) :=
      b64Index_b64Char_of_lt (by omega)
    have h4 : b64Index (b64Char (c % 64)) = some (c % 64) :=
      b64Index_b64Char_of_lt (by omega)
    have hne3 : b64Char (b % 16 * 4 + c / 64) ≠ '=' := b64Char_ne_pad_of_lt (by omega)
    have hne4 : b64Char (c % 64) ≠ '=' := b64Char_ne_pad_of_lt (by omega)
    simp only [b64encodePy, b64decodePy, h1, h2, h3, h4, if_neg hne3, if_neg hne4, ih]
    congr 2
    · omega
    · congr 1
      · omega
      · congr 1
        omega

/-- The URL-safe translation maps `=` and only `=` to `=`. -/
theorem urlsafeChar_eq_pad_iff (c : Char) : urlsafeChar c = '=' ↔ c = '=' := by
  by_cases h1 : c = '+'
  · subst h1; decide
  · by_cases h2 : c = '/'
    · subst h2; decide
    · simp [urlsafeChar, h1, h2]

/-- Stripping padding commutes with the URL-safe translation. -/
theorem stripBase64Pad_map_urlsafe (l : List Char) :
    stripBase64Pad (l.map urlsafeChar) = (stripBase64Pad l).map urlsafeChar := by
  have hp : ((fun c : Char => decide (c = '=')) ∘ urlsafeChar)
      = (fun c : Char => decide (c = '=')) := by
    funext c
    exact decide_eq_decide.mpr (urlsafeChar_eq_pad_iff c)
  unfold stripBase64Pad
  rw [← List.map_reverse, List.dropWhile_map, hp, ← List.map_reverse]

/-- Stripping padding removes no other characters. -/
theorem mem_of_mem_stripBase64Pad {c : Char} {s : List Char}
    (h : c ∈ stripBase64Pad s) : c ∈ s := by
  unfold stripBase64Pad at h
  rw [List.mem_reverse] at h
  have hsub : List.Sublist (s.reverse.dropWhile (fun c => c = '=')) s.reverse :=
    List.dropWhile_sublist _
  have := hsub.mem h
  rwa [List.mem_reverse] at this

/-- Every character of an encoding is restored by replace ∘ urlsafe. -/
theorem replace_urlsafe_of_mem_encode :
    ∀ (l : List Nat) (c : Char), c ∈ b64encodePy l →
      replaceUrlChar (urlsafeChar c) = c
  | [], c, hc => absurd hc (List.not_mem_nil c)
  | [a], c, hc => by
    simp only [b64encodePy, List.mem_cons, List.not_mem_nil, or_false] at hc
    rcases hc with h | h | h | h
    · rw [h]; exact replace_urlsafe_b64Char_nat _
    · rw [h]; exact replace_urlsafe_b64Char_nat _
    · rw [h]; decide
    · rw [h]; decide
  | [a, b], c, hc => by
    simp only [b64encodePy, List.mem_cons, List.not_mem_nil, or_false] at hc
    rcases hc with h | h | h | h
    · rw [h]; exact replace_urlsafe_b64Char_nat _
    · rw [h]; exact replace_urlsafe_b64Char_nat _
    · rw [h]; exact replace_urlsafe_b64Char_nat _
    · rw [h]; decide
  | a :: b :: d :: rest, c, hc => by
    simp only [b64encodePy, List.mem_cons] at hc
    rcases hc with h | h | h | h | h
    · rw [h]; exact replace_urlsafe_b64Char_nat _
    · rw [h]; exact replace_urlsafe_b64Char_nat _
    · rw [h]; exact replace_urlsafe_b64Char_nat _
    · rw [h]; exact replace_urlsafe_b64Char_nat _
    · exact replace_urlsafe_of_mem_encode rest c h

/-- The `-`/`_` replacement on the stripped URL-safe encoding yields the
stripped standard encoding. -/
theorem map_replace_strip_urlsafe (l : List Nat) :
    (stripBase64Pad (urlsafe_b64encode l)).map replaceUrlChar
      = stripBase64Pad (b64encodePy l) := by
  unfold urlsafe_b64encode
  rw [stripBase64Pad_map_urlsafe, List.map_map]
  calc (stripBase64Pad (b64encodePy l)).map (replaceUrlChar ∘ urlsafeChar)
      = (stripBase64Pad (b64encodePy l)).map id :=
        List.map_congr_left (fun c hc =>
          replace_urlsafe_of_mem_encode l c (mem_of_mem_stripBase64Pad hc))
    _ = stripBase64Pad (b64encodePy l) := List.map_id _

/-- Stripping padding skips over a pad-free leading quad. -/
theorem stripBase64Pad_cons4 (q1 q2 q3 q4 : Char) (s : List Char) (hq4 : q4 ≠ '=') :
    stripBase64Pad (q1 :: q2 :: q3 :: q4 :: s)
      = q1 :: q2 :: q3 :: q4 :: stripBase64Pad s := by
  unfold stripBase64Pad
  have hrev : (q1 :: q2 :: q3 :: q4 :: s).reverse = s.reverse ++ [q4, q3, q2, q1] := by
    simp
  rw [hrev, List.dropWhile_append]
  by_cases hemp : (s.reverse.dropWhile (fun c => c = '=')).isEmpty
  · rw [if_pos hemp]
    rw [List.dropWhile_cons_of_neg (by simp [hq4])]
    have hnil : s.reverse.dropWhile (fun c => c = '=') = [] :=
      List.isEmpty_iff.mp hemp
    rw [hnil]
    simp
  · rw [if_neg hemp]
    simp

/-- Restoring padding skips over a leading quad. -/
theorem b64Repad_cons4 (q1 q2 q3 q4 : Char) (t : List Char) :
    b64Repad (q1 :: q2 :: q3 :: q4 :: t) = q1 :: q2 :: q3 :: q4 :: b64Repad t := by
  unfold b64Repad
  have hlen : (q1 :: q2 :: q3 :: q4 :: t).length % 4 = t.length % 4 := by
    simp [List.length_cons]
    omega
  rw [hlen]
  by_cases h : t.length % 4 = 0
  · rw [if_pos h, if_pos h]
  · rw [if_neg h, if_neg h]
    simp

/-- Restoring padding after stripping it reproduces the encoding. -/
theorem b64Repad_strip_encode : ∀ l : List Nat,
    b64Repad (stripBase64Pad (b64encodePy l)) = b64encodePy l
  | [] => rfl
  | [a] => by
    have ht2 : b64Char (a % 4 * 16) ≠ '=' := b64Char_ne_pad_nat _
    have hstrip : stripBase64Pad [b64Char (a / 4), b64Char (a % 4 * 16), '=', '=']
        = [b64Char (a / 4), b64Char (a % 4 * 16)] := by
      unfold stripBase64Pad
      have hrev : ([b64Char (a / 4), b64Char (a % 4 * 16), '=', '='] : List Char).reverse
          = ['=', '=', b64Char (a % 4 * 16), b64Char (a / 4)] := by simp
      rw [hrev, List.dropWhile_cons_of_pos (by decide),
          List.dropWhile_cons_of_pos (by decide),
          List.dropWhile_cons_of_neg (by simp [ht2])]
      simp
    show b64Repad (stripBase64Pad [b64Char (a / 4), b64Char (a % 4 * 16), '=', '='])
        = [b64Char (a / 4), b64Char (a % 4 * 16), '=', '=']
    rw [hstrip]
    unfold b64Repad
    rw [if_neg (by simp)]
    simp [List.replicate]
  | [a, b] => by
    have ht3 : b64Char (b % 16 * 4) ≠ '=' := b64Char_ne_pad_nat _
    have hstrip : stripBase64Pad
        [b64Char (a / 4), b64Char (a % 4 * 16 + b / 16), b64Char (b % 16 * 4), '=']
        = [b64Char (a / 4), b64Char (a % 4 * 16 + b / 16), b64Char (b % 16 * 4)] := by
      unfold stripBase64Pad
      have hrev : ([b64Char (a / 4), b64Char (a % 4 * 16 + b / 16),
          b64Char (b % 16 * 4), '='] : List Char).reverse
          = ['=', b64Char (b % 16 * 4), b64Char (a % 4 * 16 + b / 16),
             b64Char (a / 4)] := by simp
      rw [hrev, List.dropWhile_cons_of_pos (by decide),
          List.dropWhile_cons_of_neg (by simp [ht3])]
      simp
    show b64Repad (stripBase64Pad
        [b64Char (a / 4), b64Char (a % 4 * 16 + b / 16), b64Char (b % 16 * 4), '='])
        = [b64Char (a / 4), b64Char (a % 4 * 16 + b / 16), b64Char (b % 16 * 4), '=']
    rw [hstrip]
    unfold b64Repad
    rw [if_neg (by simp)]
    simp [List.replicate]
  | a :: b :: c :: rest => by
    have ih := b64Repad_strip_encode rest
    have hq4 : b64Char (c % 64) ≠ '=' := b64Char_ne_pad_nat _
    show b64Repad (stripBase64Pad (b64Char (a / 4) :: b64Char (a % 4 * 16 + b / 16) ::
      b64Char (b % 16 * 4 + c / 64) :: b64Char (c % 64) :: b64encodePy rest)) = _
    rw [stripBase64Pad_cons4 _ _ _ _ _ hq4, b64Repad_cons4, ih]
    rfl

/-- A successful strict decode means every input character is either in
the alphabet or the padding character. -/
theorem b64decodePy_some_chars : ∀ (t : List Char) (r : List Nat),
    b64decodePy t = some r → ∀ c ∈ t, (b64Index c).isSome ∨ c = '='
  | [], _, _, c, hc => absurd hc (List.not_mem_nil c)
  | [c1], r, h, c, hc => by simp [b64decodePy] at h
  | [c1, c2], r, h, c, hc => by simp [b64decodePy] at h
  | [c1, c2, c3], r, h, c, hc => by simp [b64decodePy] at h
  | c1 :: c2 :: c3 :: c4 :: rest, r, h, c, hc => by
    cases h1 : b64Index c1 with
    | none =>
      simp only [b64decodePy, h1] at h
      exact Option.noConfusion h
    | some w =>
    cases h2 : b64Index c2 with
    | none =>
      simp only [b64decodePy, h1, h2] at h
      exact Option.noConfusion h
    | some x =>
    simp only [b64decodePy, h1, h2] at h
    by_cases hc3 : c3 = '='
    · rw [if_pos hc3] at h
      by_cases hc4 : c4 = '='
      · rw [if_pos hc4] at h
        by_cases hrest : rest.isEmpty
        · have hrestnil : rest = [] := List.isEmpty_iff.mp hrest
          subst hrestnil
          simp only [List.mem_cons, List.not_mem_nil, or_false] at hc
          rcases hc with rfl | rfl | rfl | rfl
          · left; rw [h1]; rfl
          · left; rw [h2]; rfl
          · right; exact hc3
          · right; exact hc4
        · rw [if_neg hrest] at h; cases h
      · rw [if_neg hc4] at h; cases h
    · rw [if_neg hc3] at h
      cases h3 : b64Index c3 with
      | none => rw [h3] at h; simp at h
      | some y =>
      rw [h3] at h
      simp only at h
      by_cases hc4 : c4 = '='
      · rw [if_pos hc4] at h
        by_cases hrest : rest.isEmpty
        · have hrestnil : rest = [] := List.isEmpty_iff.mp hrest
          subst hrestnil
          simp only [List.mem_cons, List.not_mem_nil, or_false] at hc
          rcases hc with rfl | rfl | rfl | rfl
          · left; rw [h1]; rfl
          · left; rw [h2]; rfl
          · left; rw [h3]; rfl
          · right; exact hc4
        · rw [if_neg hrest] at h; cases h
      · rw [if_neg hc4] at h
        cases h4 : b64Index c4 with
        | none => rw [h4] at h; simp at h
        | some z =>
        rw [h4] at h
        simp only at h
        cases hrec : b64decodePy rest with
        | none => rw [hrec] at h; simp at h
        | some t' =>
          have ih := b64decodePy_some_chars rest t' hrec
          simp only [List.mem_cons] at hc
          rcases hc with rfl | rfl | rfl | rfl | hc
          · left; rw [h1]; rfl
          · left; rw [h2]; rfl
          · left; rw [h3]; rfl
          · left; rw [h4]; rfl
          · exact ih c hc

/-- An input containing a character that, after the `-`/`_` replacement,
is neither in the alphabet nor padding makes `decode_base64_data` raise. -/
theorem decode_base64_data_none_of_bad (s : List Char) (c : Char) (hmem : c ∈ s)
    (hbad : b64Index (replaceUrlChar c) = none) (hne : replaceUrlChar c ≠ '=') :
    decode_base64_data s = none := by
  cases hdec : decode_base64_data s with
  | none => rfl
  | some r =>
    exfalso
    unfold decode_base64_data at hdec
    have hmem2 : replaceUrlChar c ∈ s.map replaceUrlChar :=
      List.mem_map_of_mem _ hmem
    have hmem3 : replaceUrlChar c ∈ b64Repad (s.map replaceUrlChar) := by
      unfold b64Repad
      by_cases hl : (s.map replaceUrlChar).length % 4 = 0
      · rw [if_pos hl]; exact hmem2
      · rw [if_neg hl]; exact List.mem_append_left _ hmem2
    rcases b64decodePy_some_chars _ r hdec _ hmem3 with hs | hp
    · rw [hbad] at hs; simp at hs
    · exact hne hp

/-- C9: `decode_base64_data` is a left inverse of unpadded URL-safe base64
encoding — decoding the URL-safe encoding of any byte string with its `=`
padding stripped returns exactly that byte string — and it raises (returns
`none`) on any input containing a character that is outside the base64
alphabet after the `-`/`_` replacement and is not the padding character. -/
theorem decode_base64_data_left_inverse :
    (∀ (l : List Nat), (∀ x ∈ l, x < 256) →
      decode_base64_data (stripBase64Pad (urlsafe_b64encode l)) = some l)
    ∧ (∀ (s : List Char) (c : Char), c ∈ s → b64Index (replaceUrlChar c) = none →
      replaceUrlChar c ≠ '=' → decode_base64_data s = none) := by
  constructor
  · intro l h
    unfold decode_base64_data
    rw [map_replace_strip_urlsafe, b64Repad_strip_encode]
    exact b64decodePy_b64encodePy l h
  · exact decode_base64_data_none_of_bad

/-- Witness for C9: the byte string `[72, 105, 33, 255]` round-trips, and
the input `"SG*V"` (containing `*`) is rejected. -/
theorem decode_base64_data_left_inverse_witness :
    decode_base64_data (stripBase64Pad (urlsafe_b64encode [72, 105, 33, 255]))
      = some [72, 105, 33, 255]
    ∧ decode_base64_data ['S', 'G', '*', 'V'] = none :=
  ⟨decode_base64_data_left_inverse.1 [72, 105, 33, 255] (by decide),
   decode_base64_data_left_inverse.2 ['S', 'G', '*', 'V'] '*' (by decide) (by decide)
     (by decide)⟩

/-- C10: when every entry whose message lookup succeeds has its `part_id`
among the returned attachment mapping's keys, `bulk_save_gmail_attachments`
returns exactly one result text per input entry, in input order — the one
given by `bulkEntryResult`, which yields a failure message for an entry
whose message or attachment lookup fails or whose decode/write raises,
while the remaining entries are still processed. -/
theorem bulk_save_one_result_per_entry (w : BulkWorld) (uid : String)
    (entries : List AttachEntry)
    (h : ∀ e ∈ entries, partIdPresent w e = true) :
    bulk_save_gmail_attachments w uid entries
      = some (entries.map (bulkEntryResult w))
    ∧ (entries.map (bulkEntryResult w)).length = entries.length := by
  refine ⟨?_, by simp⟩
  induction entries with
  | nil => rfl
  | cons e rest ih =>
    have ihm := ih (fun e' h' => h e' (List.mem_cons_of_mem _ h'))
    have he := h e (List.mem_cons_self e rest)
    cases hga : w.getEmailAtts e.message_id with
    | none =>
      simp [bulk_save_gmail_attachments, bulkEntryResult, hga, ihm]
    | some atts =>
      have hsome : (atts.lookup e.part_id).isSome = true := by
        unfold partIdPresent at he
        rw [hga] at he
        exact he
      obtain ⟨attId, hl⟩ := Option.isSome_iff_exists.mp hsome
      cases hatt : w.getAttachment e.message_id attId with
      | none =>
        simp [bulk_save_gmail_attachments, bulkEntryResult, hga, hl, hatt, ihm]
      | some file_data =>
        simp [bulk_save_gmail_attachments, bulkEntryResult, hga, hl, hatt, ihm]

/-- Witness for C10: two entries, one resolvable and one with a missing
message, yield exactly two results. -/
theorem bulk_save_one_result_per_entry_witness :
    bulk_save_gmail_attachments bwDemo "alice@example.com" demoEntries
      = some (demoEntries.map (bulkEntryResult bwDemo))
    ∧ (demoEntries.map (bulkEntryResult bwDemo)).length = demoEntries.length :=
  bulk_save_one_result_per_entry bwDemo "alice@example.com" demoEntries (by decide)

end McpGsuite
